import Mathlib

/-!
Shallow embedding of the Application-Specific Password (ASP) API handlers in
src/lib/api/asps.js: the list handler (GET /users/:user/asps), the create
handler (POST /users/:user/asps) and the delete handler
(DELETE /users/:user/asps/:asp).

External collaborators (the mongo users/asps collections, userHandler and the
mobileconfig signer) are passed in as explicit values: a user lookup function,
the asps collection as a list of records, and the outcomes the collaborators
would produce.  The handlers themselves are translated line by line from the
source.  JavaScript truthiness that matters to the control flow (empty string,
0, undefined, the length of arrays) is modelled explicitly where it occurs.
-/

namespace WildduckAsps

/-- Modelled from the spec: the known protocol scope vocabulary
(consts.SCOPES, defined in lib/consts.js which is outside src/).  The spec
names mail-retrieval (imap) and mail-submission (smtp) as members; pop3 is the
remaining protocol scope of the vocabulary. -/
def SCOPES : List String := ["imap", "pop3", "smtp"]

/-- Drop leading and trailing whitespace from a character list. -/
def trimChars (l : List Char) : List Char :=
  ((l.dropWhile Char.isWhitespace).reverse.dropWhile Char.isWhitespace).reverse

/-- JavaScript String.prototype.trim, modelled over the character list of the
string. -/
def jsTrim (s : String) : String := String.mk (trimChars s.data)

/-- If pat is a prefix of the second list, return the remainder after it. -/
def stripPrefixCl : List Char → List Char → Option (List Char)
  | [], rest => some rest
  | _ :: _, [] => none
  | p :: ps, c :: rest => if c = p then stripPrefixCl ps rest else none

/-- Replace every occurrence of a nonempty pattern, scanning left to right;
fuel bounds the recursion and is instantiated with the list length. -/
def replaceAllFuel (pat repl : List Char) : Nat → List Char → List Char
  | 0, l => l
  | _ + 1, [] => []
  | fuel + 1, c :: rest =>
    match pat, stripPrefixCl pat (c :: rest) with
    | _ :: _, some remainder => repl ++ replaceAllFuel pat repl fuel remainder
    | _, _ => c :: replaceAllFuel pat repl fuel rest

/-- JavaScript str.replace with a global literal pattern. -/
def jsReplaceAll (pat repl s : String) : String :=
  String.mk (replaceAllFuel pat.data repl.data s.data.length s.data)

/-- Split a character list on commas; splitting the empty list yields one
empty token, as JavaScript str.split(',') does. -/
def splitCommaAux : List Char → List Char → List String
  | [], acc => [String.mk acc.reverse]
  | c :: rest, acc =>
    if c = ',' then String.mk acc.reverse :: splitCommaAux rest []
    else splitCommaAux rest (c :: acc)

/-- JavaScript str.split(','). -/
def jsSplitComma (s : String) : List String := splitCommaAux s.data []

/-- Lines 230-235: a comma-delimited scopes string is split on commas, each
token trimmed, and empty tokens dropped. -/
def splitScopes (s : String) : List String :=
  ((jsSplitComma s).map jsTrim).filter (fun t => t != "")

/-- The scopes field of a create request: absent, a comma-delimited string, or
an array of strings. -/
inductive ScopesField
  | absent
  | fromString (s : String)
  | fromArray (l : List String)
deriving Repr, DecidableEq

/-- The scopes value after the string-preprocessing step (lines 230-235):
absent stays absent, a string is split, an array passes through. -/
def preScopes : ScopesField → Option (List String)
  | ScopesField.absent => none
  | ScopesField.fromString s => some (splitScopes s)
  | ScopesField.fromArray l => some l

/-- Lines 212-218: each scope item must be one of consts.SCOPES or the
wildcard. -/
def validScopeToken (t : String) : Bool := t == "*" || SCOPES.contains t

/-- Joi validation of the scopes field (lines 212-218):
Joi.array().items(Joi.string().valid(SCOPES and wildcard).required()).unique().
The field is optional, but when present the required() inside items() forces
at least one matching item, so the empty array is rejected; unique() rejects
duplicates. -/
def scopesFieldValid : Option (List String) → Bool
  | none => true
  | some l => !l.isEmpty && l.all validScopeToken && l.dedup == l

/-- Joi validation of the description (lines 208-211):
Joi.string().trim().max(255).required().  Joi strings reject the empty string
by default, and trim() converts the value before the length check. -/
def descriptionValid (d : String) : Bool :=
  jsTrim d != "" && decide ((jsTrim d).length ≤ 255)

/-- Line 252: result.value.scopes or a wildcard default.  In JavaScript an
array is always truthy (even the empty array), so the default applies exactly
when the field is absent. -/
def defaultScopes (v : Option (List String)) : List String := v.getD ["*"]

/-- Lines 255-257: if the requested scopes include the wildcard, the set
collapses to the singleton wildcard list. -/
def collapseScopes (l : List String) : List String :=
  if l.contains "*" then ["*"] else l

/-- The scopes value in the handler after default and collapse
(lines 252-257). -/
def normalizeScopes (v : Option (List String)) : List String :=
  collapseScopes (defaultScopes v)

/-- JavaScript a or-else b for string-or-undefined values: the empty string
and undefined are both falsy. -/
def jsOrStr : Option String → Option String → Option String
  | some s, b => if s == "" then b else some s
  | none, b => b

/-- JavaScript a or-else b for number-or-undefined values: 0 is falsy. -/
def jsOrNat : Option Nat → Nat → Nat
  | some n, d => if n == 0 then d else n
  | none, d => d

/-- The config.api.mobileconfig template: a mapping of named string fields,
each possibly absent. -/
structure MobileconfigTemplate where
  displayName : Option String
  displayDescription : Option String
  accountDescription : Option String
  identifier : Option String
deriving Repr, DecidableEq

/-- Lines 311-316: every template value is stringified, has each occurrence of
the placeholder replaced by the account address, and is trimmed.  Keys absent
from the template stay absent (undefined). -/
def substField (address : String) : Option String → Option String
  | none => none
  | some v => some (jsTrim (jsReplaceAll "{email}" address v))

/-- The per-request profileOpts object of lines 310-316. -/
def substTemplate (tmpl : MobileconfigTemplate) (address : String) :
    MobileconfigTemplate :=
  ⟨substField address tmpl.displayName,
   substField address tmpl.displayDescription,
   substField address tmpl.accountDescription,
   substField address tmpl.identifier⟩

/-- The slice of the process configuration the create handler reads
(lines 326-338). -/
structure Config where
  imapSetupHostname : String
  imapSetupPort : Option Nat
  imapPort : Nat
  imapSetupSecure : Bool
  smtpSetupHostname : String
  smtpSetupPort : Option Nat
  smtpPort : Nat
  smtpSetupSecure : Bool
deriving Repr, DecidableEq

/-- The user document fields projected by the create handler (lines 270-276). -/
structure UserData where
  username : String
  name : String
  address : String
deriving Repr, DecidableEq

/-- One protocol connection block of the profile options (imap or smtp).
password none models the JavaScript literal false (reuse the imap
credential). -/
structure ConnBlock where
  hostname : String
  port : Nat
  secure : Bool
  username : String
  password : Option String
deriving Repr, DecidableEq

/-- The options object handed to mobileconfig.getSignedEmailConfig
(lines 318-340); the signing keys are opaque and omitted. -/
structure ProfileOptions where
  displayName : Option String
  displayDescription : Option String
  accountDescription : Option String
  emailAddress : String
  emailAccountName : String
  identifier : String
  imap : ConnBlock
  smtp : ConnBlock
deriving Repr, DecidableEq

/-- Lines 310-340: compose the profile options from the template, the user
document, the validated description and the generated password.  The smtp
secure flag is the literal true of line 335 (the config read is commented out
in the source) and the smtp password is the literal false of line 337.  An
absent template identifier concatenates as the string undefined in
JavaScript. -/
def buildProfileOptions (cfg : Config) (tmpl : MobileconfigTemplate)
    (userData : UserData) (description : String) (password : String) :
    ProfileOptions :=
  ⟨jsOrStr (some description) (substTemplate tmpl userData.address).displayName,
   (substTemplate tmpl userData.address).displayDescription,
   (substTemplate tmpl userData.address).accountDescription,
   userData.address,
   userData.name,
   ((substTemplate tmpl userData.address).identifier.getD "undefined")
     ++ "." ++ userData.username,
   ⟨cfg.imapSetupHostname, jsOrNat cfg.imapSetupPort cfg.imapPort,
    cfg.imapSetupSecure, userData.username, some password⟩,
   ⟨cfg.smtpSetupHostname, jsOrNat cfg.smtpSetupPort cfg.smtpPort,
    true, userData.username, none⟩⟩

/-- A JSON body sent by res.json in the create and delete handlers, as a
record of the fields any call site may set; unset fields are none. -/
structure ApiJson where
  success : Option Bool
  id : Option Nat
  password : Option String
  mobileconfig : Option String
  error : Option String
  code : Option String
deriving Repr, DecidableEq

/-- A response carrying an error message and a code field. -/
def errCodeJson (msg code : String) : ApiJson :=
  ⟨none, none, none, none, some msg, some code⟩

/-- A response carrying only an error message, no code (the generateASP,
signer and deleteASP error paths). -/
def errJson (msg : String) : ApiJson :=
  ⟨none, none, none, none, some msg, none⟩

/-- Lines 260-263: the profile scope conflict response; it has no code
field. -/
def scopeConflictJson : ApiJson :=
  errJson "Profile file requires imap and smtp scopes"

/-- Lines 302-306: success without a profile. -/
def successCreateJson (id : Nat) (password : String) : ApiJson :=
  ⟨some true, some id, some password, none, none, none⟩

/-- Lines 350-355: success with a signed profile (base64 of the signed
blob). -/
def successProfileJson (id : Nat) (password : String) (mc : String) : ApiJson :=
  ⟨some true, some id, some password, some mc, none, none⟩

/-- Lines 439-441: the delete success response. -/
def successDeleteJson : ApiJson :=
  ⟨some true, none, none, none, none, none⟩

/-- Placeholder for the Joi validation error message; the concrete message
text depends on the violated rule and is not modelled. -/
def joiErrorMessage : String := "Input validation failed"

/-- An ASP document of the asps collection.  mongoId models the mongo _id
(ids are assigned in ascending insertion order); password models the stored
credential material, which the list projection never touches. -/
structure Asp where
  mongoId : Nat
  user : Nat
  description : String
  scopes : List String
  password : String
  used : Option Nat
  authEvent : Option Nat
  created : Nat
deriving Repr, DecidableEq

/-- One entry of the list results (lines 133-142).  lastUseTime and
lastUseEvent of none model the JSON literal false of asp.used or-else false
and asp.authEvent or-else false.  There is no secret field. -/
structure AspSummary where
  id : Nat
  description : String
  scopes : List String
  lastUseTime : Option Nat
  lastUseEvent : Option Nat
  created : Nat
deriving Repr, DecidableEq

/-- The mapping of lines 133-142 from a stored ASP to its list summary. -/
def toSummary (a : Asp) : AspSummary :=
  ⟨a.mongoId, a.description, a.scopes, a.used, a.authEvent, a.created⟩

/-- Replace the stored credential material of a record. -/
def setPassword (a : Asp) (p : String) : Asp :=
  ⟨a.mongoId, a.user, a.description, a.scopes, p, a.used, a.authEvent,
   a.created⟩

/-- Ordering by mongo _id, the sort key of line 116. -/
def aspLe (x y : Asp) : Prop := x.mongoId ≤ y.mongoId

instance : DecidableRel aspLe := fun x y =>
  inferInstanceAs (Decidable (x.mongoId ≤ y.mongoId))

instance : IsTotal Asp aspLe := ⟨fun x y => Nat.le_total x.mongoId y.mongoId⟩

instance : IsTrans Asp aspLe := ⟨fun _ _ _ h h2 => Nat.le_trans h h2⟩

/-- Line 113-115: the find filter on the owning user. -/
def userAsps (aspsDb : List Asp) (user : Nat) : List Asp :=
  aspsDb.filter (fun a => a.user == user)

/-- Lines 111-142: filter to the owner, sort ascending by _id, map to
summaries. -/
def listResults (aspsDb : List Asp) (user : Nat) : List AspSummary :=
  (List.insertionSort aspLe (userAsps aspsDb user)).map toSummary

/-- The list handler response body. -/
inductive ListResponse
  | inputValidationError (msg : String)
  | dbError (msg : String)
  | userNotFound
  | success (results : List AspSummary)
deriving Repr, DecidableEq

/-- The list handler (lines 60-149) after input validation of the user id:
look up the owner, then return every summary; success carries the
success-true flag of line 131. -/
def listAsps (usersDb : Nat → Option UserData) (aspsDb : List Asp)
    (user : Nat) : ListResponse :=
  match usersDb user with
  | none => ListResponse.userNotFound
  | some _ => ListResponse.success (listResults aspsDb user)

/-- What userHandler.generateASP returns on success. -/
structure GenResult where
  id : Nat
  password : String
deriving Repr, DecidableEq

/-- A create request after transport decoding: the user id (assumed
well-formed, id validation is not claim-relevant), the raw description, the
raw scopes field, and the coerced generateMobileconfig boolean. -/
structure CreateRequest where
  user : Nat
  description : String
  scopes : ScopesField
  generateMobileconfig : Bool
deriving Repr, DecidableEq

/-- Modelled from the spec: userHandler.generateASP (outside src/) mints
id and secret and persists the ASP record for the owner with the given
description and scopes, initially never used. -/
def mintedAsp (user : Nat) (description : String) (scopes : List String)
    (g : GenResult) (now : Nat) : Asp :=
  ⟨g.id, user, description, scopes, g.password, none, none, now⟩

/-- The observable outcome of one create call: the response body, whether the
owner lookup was reached, the scopes passed to userHandler.generateASP when it
was called, the options passed to the signer when it was called, and the asps
collection afterwards. -/
structure CreateOutcome where
  response : ApiJson
  lookedUpUser : Bool
  genScopes : Option (List String)
  signOpts : Option ProfileOptions
  aspsAfter : List Asp
deriving Repr

/-- The create handler (lines 199-361), translated branch by branch:
preprocess a string scopes field (230-235); Joi validation (237-248); default
and wildcard collapse (252-257); the profile scope conflict check (259-264);
the owner lookup (266-291); generateASP (293-299); the no-profile success
path (301-308); profile composition (310-340) and signing (342-357).
genRes and signRes are the outcomes the collaborators would produce if
called. -/
def createAsp (cfg : Config) (tmpl : MobileconfigTemplate)
    (usersDb : Nat → Option UserData) (aspsDb : List Asp) (now : Nat)
    (genRes : Except String GenResult) (signRes : Except String String)
    (req : CreateRequest) : CreateOutcome :=
  if !(descriptionValid req.description &&
      scopesFieldValid (preScopes req.scopes)) then
    ⟨errCodeJson joiErrorMessage "InputValidationError", false, none, none,
     aspsDb⟩
  else if req.generateMobileconfig &&
      !(normalizeScopes (preScopes req.scopes)).contains "*" &&
      (!(normalizeScopes (preScopes req.scopes)).contains "imap" ||
        !(normalizeScopes (preScopes req.scopes)).contains "smtp") then
    ⟨scopeConflictJson, false, none, none, aspsDb⟩
  else
    match usersDb req.user with
    | none =>
      ⟨errCodeJson "This user does not exist" "UserNotFound", true, none,
       none, aspsDb⟩
    | some userData =>
      match genRes with
      | Except.error msg =>
        ⟨errJson msg, true, some (normalizeScopes (preScopes req.scopes)),
         none, aspsDb⟩
      | Except.ok g =>
        if !req.generateMobileconfig then
          ⟨successCreateJson g.id g.password, true,
           some (normalizeScopes (preScopes req.scopes)), none,
           aspsDb ++ [mintedAsp req.user (jsTrim req.description)
             (normalizeScopes (preScopes req.scopes)) g now]⟩
        else
          match signRes with
          | Except.error msg =>
            ⟨errJson msg, true,
             some (normalizeScopes (preScopes req.scopes)),
             some (buildProfileOptions cfg tmpl userData
               (jsTrim req.description) g.password),
             aspsDb ++ [mintedAsp req.user (jsTrim req.description)
               (normalizeScopes (preScopes req.scopes)) g now]⟩
          | Except.ok data =>
            ⟨successProfileJson g.id g.password data, true,
             some (normalizeScopes (preScopes req.scopes)),
             some (buildProfileOptions cfg tmpl userData
               (jsTrim req.description) g.password),
             aspsDb ++ [mintedAsp req.user (jsTrim req.description)
               (normalizeScopes (preScopes req.scopes)) g now]⟩

/-- The delete handler (lines 395-444): after input validation, delegate to
userHandler.deleteASP and map its outcome to the response body.  The error
path of lines 433-438 sends only the error message. -/
def deleteAsp (paramsValid : Bool) (delRes : Except String Unit) : ApiJson :=
  if !paramsValid then errCodeJson joiErrorMessage "InputValidationError"
  else
    match delRes with
    | Except.error msg => errJson msg
    | Except.ok _ => successDeleteJson

/-! Helper lemmas shared by the claim theorems. -/

theorem contains_eq_true_iff (l : List String) (a : String) :
    l.contains a = true ↔ a ∈ l :=
  List.elem_iff

theorem normalize_contains_star (v : Option (List String)) :
    (normalizeScopes v).contains "*" = true ↔ normalizeScopes v = ["*"] := by
  unfold normalizeScopes collapseScopes
  by_cases h : (defaultScopes v).contains "*" = true
  · rw [if_pos h]
    exact iff_of_true (by decide) rfl
  · rw [if_neg h]
    constructor
    · intro hc
      exact absurd hc h
    · intro he
      rw [he] at h
      exact absurd (by decide) h

theorem normalize_of_mem_star (l : List String) (h : "*" ∈ l) :
    normalizeScopes (some l) = ["*"] := by
  unfold normalizeScopes defaultScopes collapseScopes
  rw [Option.getD_some, if_pos ((contains_eq_true_iff l "*").mpr h)]

/-- Whenever generateASP was called, the scopes it received are the
normalized scopes of the request. -/
theorem createAsp_genScopes_inv (cfg : Config) (tmpl : MobileconfigTemplate)
    (usersDb : Nat → Option UserData) (aspsDb : List Asp) (now : Nat)
    (genRes : Except String GenResult) (signRes : Except String String)
    (req : CreateRequest) (s : List String)
    (hs : (createAsp cfg tmpl usersDb aspsDb now genRes signRes req).genScopes
      = some s) :
    s = normalizeScopes (preScopes req.scopes) := by
  unfold createAsp at hs
  repeat' split at hs
  all_goals simp at hs
  all_goals exact hs.symm

/-- Whenever the signer was called, the options it received were composed by
buildProfileOptions from the looked-up user, the trimmed description and the
generated password. -/
theorem createAsp_signOpts_inv (cfg : Config) (tmpl : MobileconfigTemplate)
    (usersDb : Nat → Option UserData) (aspsDb : List Asp) (now : Nat)
    (genRes : Except String GenResult) (signRes : Except String String)
    (req : CreateRequest) (o : ProfileOptions)
    (ho : (createAsp cfg tmpl usersDb aspsDb now genRes signRes req).signOpts
      = some o) :
    ∃ u g, usersDb req.user = some u ∧ genRes = Except.ok g ∧
      o = buildProfileOptions cfg tmpl u (jsTrim req.description) g.password := by
  unfold createAsp at ho
  repeat' split at ho
  all_goals simp at ho
  all_goals exact ⟨_, _, by assumption, rfl, ho.symm⟩

/-- Any record of the collection owned by the queried user appears, by its id,
in the list results. -/
theorem mem_listResults_of_mem (aspsDb : List Asp) (user : Nat) (a : Asp)
    (ha : a ∈ aspsDb) (hu : a.user = user) :
    a.mongoId ∈ (listResults aspsDb user).map AspSummary.id := by
  have hmem : a ∈ userAsps aspsDb user := by
    rw [userAsps, List.mem_filter]
    exact ⟨ha, by simp [hu]⟩
  have hsorted : a ∈ List.insertionSort aspLe (userAsps aspsDb user) :=
    (List.mem_insertionSort aspLe).mpr hmem
  have h2 : toSummary a ∈ listResults aspsDb user :=
    List.mem_map_of_mem toSummary hsorted
  have h3 := List.mem_map_of_mem AspSummary.id h2
  exact h3

/-- The ids of the list results are sorted ascending. -/
theorem listResults_sorted (aspsDb : List Asp) (user : Nat) :
    List.Sorted (· ≤ ·) ((listResults aspsDb user).map AspSummary.id) := by
  unfold listResults
  rw [List.map_map]
  have h := List.sorted_insertionSort aspLe (userAsps aspsDb user)
  rw [List.Sorted] at h ⊢
  rw [List.pairwise_map]
  exact h

/-- The list handler on an existing account answers success with the list
results. -/
theorem listAsps_success (usersDb : Nat → Option UserData) (aspsDb : List Asp)
    (user : Nat) (u : UserData) (hu : usersDb user = some u) :
    listAsps usersDb aspsDb user =
      ListResponse.success (listResults aspsDb user) := by
  unfold listAsps
  rw [hu]

/-! Concrete instances used by witnesses and counterexamples. -/

/-- Example configuration; the mail-submission setup secure flag is false so
the hardcoded smtp secure value is observable. -/
def cfgEx : Config :=
  ⟨"imap.example.com", some 993, 143, true, "smtp.example.com", none, 465,
   false⟩

/-- Example profile template carrying a display name of its own. -/
def tmplEx : MobileconfigTemplate :=
  ⟨some "Template Display", some "Desc for {email}", none,
   some "com.example.mail"⟩

/-- Example account document. -/
def userEx : UserData := ⟨"jdoe", "John Doe", "jdoe@example.com"⟩

/-- Example users collection: only user 1 exists. -/
def usersDbEx : Nat → Option UserData :=
  fun u => if u == 1 then some userEx else none

/-- A users collection with no accounts at all. -/
def noUsersDb : Nat → Option UserData := fun _ => none

/-- A create request asking for a profile with wildcard scope; the raw
description carries surrounding whitespace that Joi trims. -/
def reqProfileEx : CreateRequest :=
  ⟨1, " My ASP ", ScopesField.fromArray ["*"], true⟩

/-- A successful credential service outcome. -/
def genOkEx : Except String GenResult := Except.ok ⟨7, "pw"⟩

/-- Stored ASP records of user 1 (ids 2, 3, 5) and of user 2 (id 4). -/
def aspA : Asp := ⟨2, 1, "A", ["imap"], "ha", some 9, none, 1⟩

def aspB : Asp := ⟨3, 1, "B", ["*"], "hb", none, some 4, 2⟩

def aspC : Asp := ⟨5, 1, "C", ["smtp"], "hc", none, none, 3⟩

def aspOther : Asp := ⟨4, 2, "D", ["*"], "hd", none, none, 3⟩

def aspsDbEx : List Asp := [aspA, aspB, aspOther, aspC]

/-! Claim theorems. -/

/-- Claim C2: a create call that wants a profile and whose normalized scope
set neither equals the wildcard singleton nor contains both the imap and
smtp scopes fails with the profile scope conflict error, and no credential is
generated: userHandler.generateASP is never called. -/
theorem c2_profile_scope_conflict (cfg : Config) (tmpl : MobileconfigTemplate)
    (usersDb : Nat → Option UserData) (aspsDb : List Asp) (now : Nat)
    (genRes : Except String GenResult) (signRes : Except String String)
    (req : CreateRequest)
    (hv : (descriptionValid req.description &&
      scopesFieldValid (preScopes req.scopes)) = true)
    (hm : req.generateMobileconfig = true)
    (hstar : normalizeScopes (preScopes req.scopes) ≠ ["*"])
    (hboth : "imap" ∉ normalizeScopes (preScopes req.scopes) ∨
      "smtp" ∉ normalizeScopes (preScopes req.scopes)) :
    (createAsp cfg tmpl usersDb aspsDb now genRes signRes req).response =
        scopeConflictJson ∧
      (createAsp cfg tmpl usersDb aspsDb now genRes signRes req).genScopes =
        none := by
  have hc : (normalizeScopes (preScopes req.scopes)).contains "*" = false := by
    rw [← Bool.not_eq_true]
    intro h
    exact hstar ((normalize_contains_star _).mp h)
  have hib : (!(normalizeScopes (preScopes req.scopes)).contains "imap" ||
      !(normalizeScopes (preScopes req.scopes)).contains "smtp") = true := by
    rcases hboth with h | h
    · have hi : (normalizeScopes (preScopes req.scopes)).contains "imap"
          = false := by
        rw [← Bool.not_eq_true]
        intro hx
        exact h ((contains_eq_true_iff _ _).mp hx)
      rw [hi, Bool.not_false]
      simp
    · have hi : (normalizeScopes (preScopes req.scopes)).contains "smtp"
          = false := by
        rw [← Bool.not_eq_true]
        intro hx
        exact h ((contains_eq_true_iff _ _).mp hx)
      rw [hi, Bool.not_false]
      simp
  unfold createAsp
  simp only [hv, hm, hc, hib]
  simp

/-- Claim C2 witness at a concrete request asking for a profile with only the
imap scope. -/
theorem c2_profile_scope_conflict_witness :
    (createAsp cfgEx tmplEx usersDbEx [] 0 genOkEx (Except.ok "B64")
        ⟨1, "My ASP", ScopesField.fromArray ["imap"], true⟩).response =
        scopeConflictJson ∧
      (createAsp cfgEx tmplEx usersDbEx [] 0 genOkEx (Except.ok "B64")
        ⟨1, "My ASP", ScopesField.fromArray ["imap"], true⟩).genScopes =
        none :=
  c2_profile_scope_conflict cfgEx tmplEx usersDbEx [] 0 genOkEx
    (Except.ok "B64") ⟨1, "My ASP", ScopesField.fromArray ["imap"], true⟩
    (by decide) rfl (by decide) (by decide)

/-- Claim C10: the profile scope conflict check is evaluated before the owner
lookup: with a conflicting profile request the handler answers with the scope
conflict error even when the owner does not exist, performs no account
lookup, and produces no UserNotFound code. -/
theorem c10_conflict_before_lookup (cfg : Config)
    (tmpl : MobileconfigTemplate) (usersDb : Nat → Option UserData)
    (aspsDb : List Asp) (now : Nat) (genRes : Except String GenResult)
    (signRes : Except String String) (req : CreateRequest)
    (hno : usersDb req.user = none)
    (hv : (descriptionValid req.description &&
      scopesFieldValid (preScopes req.scopes)) = true)
    (hm : req.generateMobileconfig = true)
    (hstar : normalizeScopes (preScopes req.scopes) ≠ ["*"])
    (hboth : "imap" ∉ normalizeScopes (preScopes req.scopes) ∨
      "smtp" ∉ normalizeScopes (preScopes req.scopes)) :
    (createAsp cfg tmpl usersDb aspsDb now genRes signRes req).response =
        scopeConflictJson ∧
      (createAsp cfg tmpl usersDb aspsDb now genRes signRes req).lookedUpUser
        = false ∧
      (createAsp cfg tmpl usersDb aspsDb now genRes signRes req).response.code
        ≠ some "UserNotFound" := by
  have hc : (normalizeScopes (preScopes req.scopes)).contains "*" = false := by
    rw [← Bool.not_eq_true]
    intro h
    exact hstar ((normalize_contains_star _).mp h)
  have hib : (!(normalizeScopes (preScopes req.scopes)).contains "imap" ||
      !(normalizeScopes (preScopes req.scopes)).contains "smtp") = true := by
    rcases hboth with h | h
    · have hi : (normalizeScopes (preScopes req.scopes)).contains "imap"
          = false := by
        rw [← Bool.not_eq_true]
        intro hx
        exact h ((contains_eq_true_iff _ _).mp hx)
      rw [hi, Bool.not_false]
      simp
    · have hi : (normalizeScopes (preScopes req.scopes)).contains "smtp"
          = false := by
        rw [← Bool.not_eq_true]
        intro hx
        exact h ((contains_eq_true_iff _ _).mp hx)
      rw [hi, Bool.not_false]
      simp
  unfold createAsp
  simp only [hv, hm, hc, hib]
  simp [scopeConflictJson, errJson]

/-- Claim C10 witness: the conflicting profile request on an empty users
collection still answers with the scope conflict, not UserNotFound. -/
theorem c10_conflict_before_lookup_witness :
    (createAsp cfgEx tmplEx noUsersDb [] 0 genOkEx (Except.ok "B64")
        ⟨1, "My ASP", ScopesField.fromArray ["smtp"], true⟩).response =
        scopeConflictJson ∧
      (createAsp cfgEx tmplEx noUsersDb [] 0 genOkEx (Except.ok "B64")
        ⟨1, "My ASP", ScopesField.fromArray ["smtp"], true⟩).lookedUpUser
        = false ∧
      (createAsp cfgEx tmplEx noUsersDb [] 0 genOkEx (Except.ok "B64")
        ⟨1, "My ASP", ScopesField.fromArray ["smtp"], true⟩).response.code
        ≠ some "UserNotFound" :=
  c10_conflict_before_lookup cfgEx tmplEx noUsersDb [] 0 genOkEx
    (Except.ok "B64") ⟨1, "My ASP", ScopesField.fromArray ["smtp"], true⟩
    rfl (by decide) rfl (by decide) (by decide)

/-- Claim C9: a requested scope list containing the wildcard collapses to
exactly the singleton wildcard: the normalized set is the wildcard singleton
and any scope set handed to userHandler.generateASP is that singleton. -/
theorem c9_wildcard_collapse (cfg : Config) (tmpl : MobileconfigTemplate)
    (usersDb : Nat → Option UserData) (aspsDb : List Asp) (now : Nat)
    (genRes : Except String GenResult) (signRes : Except String String)
    (req : CreateRequest) (l : List String)
    (hl : preScopes req.scopes = some l) (hmem : "*" ∈ l) :
    normalizeScopes (preScopes req.scopes) = ["*"] ∧
      ∀ s, (createAsp cfg tmpl usersDb aspsDb now genRes signRes req).genScopes
        = some s → s = ["*"] := by
  have hn : normalizeScopes (preScopes req.scopes) = ["*"] := by
    rw [hl]
    exact normalize_of_mem_star l hmem
  refine ⟨hn, fun s hs => ?_⟩
  rw [createAsp_genScopes_inv cfg tmpl usersDb aspsDb now genRes signRes req
    s hs, hn]

/-- Claim C9 witness: requesting imap together with the wildcard yields a
generateASP call with exactly the wildcard singleton. -/
theorem c9_wildcard_collapse_witness :
    normalizeScopes (preScopes (ScopesField.fromArray ["imap", "*"])) = ["*"] ∧
      ∀ s, (createAsp cfgEx tmplEx usersDbEx [] 0 genOkEx (Except.ok "B64")
        ⟨1, "My ASP", ScopesField.fromArray ["imap", "*"], true⟩).genScopes
        = some s → s = ["*"] :=
  c9_wildcard_collapse cfgEx tmplEx usersDbEx [] 0 genOkEx (Except.ok "B64")
    ⟨1, "My ASP", ScopesField.fromArray ["imap", "*"], true⟩
    ["imap", "*"] rfl (by decide)

/-- Claim C3 counterexample: a comma-delimited scopes string whose tokens are
all empty after splitting, trimming and filtering does not reach the
credential service with the wildcard singleton; the request is rejected as an
input validation error (the empty array fails the Joi item requirement), and
generateASP is never called. -/
theorem c3_counterexample :
    (createAsp cfgEx tmplEx usersDbEx [] 0 genOkEx (Except.ok "B64")
        ⟨1, "My ASP", ScopesField.fromString " , ", false⟩).genScopes ≠
        some ["*"] ∧
      (createAsp cfgEx tmplEx usersDbEx [] 0 genOkEx (Except.ok "B64")
        ⟨1, "My ASP", ScopesField.fromString " , ", false⟩).genScopes =
        none ∧
      (createAsp cfgEx tmplEx usersDbEx [] 0 genOkEx (Except.ok "B64")
        ⟨1, "My ASP", ScopesField.fromString " , ", false⟩).response.code =
        some "InputValidationError" := by
  refine ⟨by decide, by decide, by decide⟩

/-- Claim C3 (amended): when the scopes field is absent the scope set handed
to the credential service is exactly the wildcard singleton; when the scopes
field is a comma-delimited string whose tokens are empty after splitting,
trimming and filtering, the request instead fails input validation and no
credential service call is made. -/
theorem c3_scopes_default_amended (cfg : Config) (tmpl : MobileconfigTemplate)
    (usersDb : Nat → Option UserData) (aspsDb : List Asp) (now : Nat)
    (genRes : Except String GenResult) (signRes : Except String String)
    (req : CreateRequest) :
    (req.scopes = ScopesField.absent →
      ∀ s, (createAsp cfg tmpl usersDb aspsDb now genRes signRes req).genScopes
        = some s → s = ["*"]) ∧
    (∀ str, req.scopes = ScopesField.fromString str → splitScopes str = [] →
      (createAsp cfg tmpl usersDb aspsDb now genRes signRes req).response =
          errCodeJson joiErrorMessage "InputValidationError" ∧
        (createAsp cfg tmpl usersDb aspsDb now genRes signRes req).genScopes =
          none) := by
  constructor
  · intro habs s hs
    rw [createAsp_genScopes_inv cfg tmpl usersDb aspsDb now genRes signRes req
      s hs, habs]
    rfl
  · intro str hstr hsplit
    have hval : scopesFieldValid (preScopes req.scopes) = false := by
      rw [hstr]
      show scopesFieldValid (some (splitScopes str)) = false
      rw [hsplit]
      rfl
    unfold createAsp
    simp only [hval, Bool.and_false, Bool.not_false]
    simp

/-- Claim C3 witness: both amended branches at concrete inputs, with absent
scopes reaching generateASP as the wildcard singleton. -/
theorem c3_scopes_default_amended_witness :
    ((createAsp cfgEx tmplEx usersDbEx [] 0 genOkEx (Except.ok "B64")
        ⟨1, "My ASP", ScopesField.absent, false⟩).genScopes = some ["*"]) ∧
      ((createAsp cfgEx tmplEx usersDbEx [] 0 genOkEx (Except.ok "B64")
        ⟨1, "My ASP", ScopesField.fromString "", false⟩).response =
        errCodeJson joiErrorMessage "InputValidationError") :=
  ⟨by decide,
   ((c3_scopes_default_amended cfgEx tmplEx usersDbEx [] 0 genOkEx
      (Except.ok "B64")
      ⟨1, "My ASP", ScopesField.fromString "", false⟩).2 "" rfl
      (by decide)).1⟩

/-- Claim C1 counterexample: at this create call the signer fails after the
credential with id 7 was minted; the minted record is present afterwards (no
rollback), yet the error response does not include the assigned id: every
response field except the error message is none. -/
theorem c1_counterexample :
    (createAsp cfgEx tmplEx usersDbEx [] 5 (Except.ok ⟨7, "pw"⟩)
        (Except.error "Signing failed") reqProfileEx).aspsAfter.map
        Asp.mongoId = [7] ∧
      (createAsp cfgEx tmplEx usersDbEx [] 5 (Except.ok ⟨7, "pw"⟩)
        (Except.error "Signing failed") reqProfileEx).response =
        errJson "Signing failed" ∧
      (createAsp cfgEx tmplEx usersDbEx [] 5 (Except.ok ⟨7, "pw"⟩)
        (Except.error "Signing failed") reqProfileEx).response.id = none ∧
      (createAsp cfgEx tmplEx usersDbEx [] 5 (Except.ok ⟨7, "pw"⟩)
        (Except.error "Signing failed") reqProfileEx).response.success =
        none := by
  refine ⟨by decide, by decide, by decide, by decide⟩

/-- Claim C1 (amended): when the profile signer fails after the credential was
minted, the credential is not rolled back: a subsequent list for the owner
shows the new ASP.  The error response carries only the signer error message;
it does not include the assigned id (its id field is none). -/
theorem c1_sign_failure_amended (cfg : Config) (tmpl : MobileconfigTemplate)
    (usersDb : Nat → Option UserData) (aspsDb : List Asp) (now : Nat)
    (req : CreateRequest) (u : UserData) (g : GenResult) (msg : String)
    (hv : (descriptionValid req.description &&
      scopesFieldValid (preScopes req.scopes)) = true)
    (hm : req.generateMobileconfig = true)
    (hscope : normalizeScopes (preScopes req.scopes) = ["*"] ∨
      ("imap" ∈ normalizeScopes (preScopes req.scopes) ∧
        "smtp" ∈ normalizeScopes (preScopes req.scopes)))
    (hu : usersDb req.user = some u) :
    (createAsp cfg tmpl usersDb aspsDb now (Except.ok g) (Except.error msg)
        req).response = errJson msg ∧
      (createAsp cfg tmpl usersDb aspsDb now (Except.ok g) (Except.error msg)
        req).response.id = none ∧
      ∃ rs, listAsps usersDb (createAsp cfg tmpl usersDb aspsDb now
          (Except.ok g) (Except.error msg) req).aspsAfter req.user =
          ListResponse.success rs ∧ g.id ∈ rs.map AspSummary.id := by
  have hcond : (req.generateMobileconfig &&
      !(normalizeScopes (preScopes req.scopes)).contains "*" &&
      (!(normalizeScopes (preScopes req.scopes)).contains "imap" ||
        !(normalizeScopes (preScopes req.scopes)).contains "smtp"))
      = false := by
    rcases hscope with h | ⟨hi, hsm⟩
    · have hc : (normalizeScopes (preScopes req.scopes)).contains "*"
          = true := (normalize_contains_star _).mpr h
      simp only [hc, Bool.not_true, Bool.and_false, Bool.false_and]
    · have h1 : (normalizeScopes (preScopes req.scopes)).contains "imap"
          = true := (contains_eq_true_iff _ _).mpr hi
      have h2 : (normalizeScopes (preScopes req.scopes)).contains "smtp"
          = true := (contains_eq_true_iff _ _).mpr hsm
      simp only [h1, h2, Bool.not_true, Bool.or_self, Bool.and_false]
  have hout : createAsp cfg tmpl usersDb aspsDb now (Except.ok g)
      (Except.error msg) req =
      ⟨errJson msg, true, some (normalizeScopes (preScopes req.scopes)),
       some (buildProfileOptions cfg tmpl u (jsTrim req.description)
         g.password),
       aspsDb ++ [mintedAsp req.user (jsTrim req.description)
         (normalizeScopes (preScopes req.scopes)) g now]⟩ := by
    unfold createAsp
    rw [hv, hcond]
    simp [hu, hm]
  refine ⟨by rw [hout], by rw [hout]; rfl, ?_⟩
  rw [hout]
  refine ⟨listResults (aspsDb ++ [mintedAsp req.user (jsTrim req.description)
    (normalizeScopes (preScopes req.scopes)) g now]) req.user,
    listAsps_success usersDb _ req.user u hu, ?_⟩
  exact mem_listResults_of_mem _ req.user
    (mintedAsp req.user (jsTrim req.description)
      (normalizeScopes (preScopes req.scopes)) g now)
    (List.mem_append_right _ (List.mem_singleton_self _)) rfl

/-- Claim C1 witness applying the amended theorem at the concrete signer
failure. -/
theorem c1_sign_failure_amended_witness :
    (createAsp cfgEx tmplEx usersDbEx [] 5 (Except.ok ⟨7, "pw"⟩)
        (Except.error "Signing failed") reqProfileEx).response =
        errJson "Signing failed" ∧
      ∃ rs, listAsps usersDbEx (createAsp cfgEx tmplEx usersDbEx [] 5
          (Except.ok ⟨7, "pw"⟩) (Except.error "Signing failed")
          reqProfileEx).aspsAfter reqProfileEx.user =
          ListResponse.success rs ∧
        (7 : Nat) ∈ rs.map AspSummary.id :=
  ⟨(c1_sign_failure_amended cfgEx tmplEx usersDbEx [] 5 reqProfileEx userEx
      ⟨7, "pw"⟩ "Signing failed" (by decide) rfl (Or.inl (by decide))
      rfl).1,
   (c1_sign_failure_amended cfgEx tmplEx usersDbEx [] 5 reqProfileEx userEx
      ⟨7, "pw"⟩ "Signing failed" (by decide) rfl (Or.inl (by decide))
      rfl).2.2⟩

/-- Claim C4: every composed profile carries the newly generated secret as the
imap block password while the smtp block password field is the JavaScript
false (reuse convention), not a copy of the secret. -/
theorem c4_password_asymmetry (cfg : Config) (tmpl : MobileconfigTemplate)
    (usersDb : Nat → Option UserData) (aspsDb : List Asp) (now : Nat)
    (signRes : Except String String) (req : CreateRequest) (g : GenResult)
    (o : ProfileOptions)
    (ho : (createAsp cfg tmpl usersDb aspsDb now (Except.ok g) signRes
      req).signOpts = some o) :
    o.imap.password = some g.password ∧ o.smtp.password = none := by
  obtain ⟨u, g2, hu, hg2, hbuild⟩ :=
    createAsp_signOpts_inv cfg tmpl usersDb aspsDb now (Except.ok g) signRes
      req o ho
  obtain rfl : g = g2 := Except.ok.inj hg2
  rw [hbuild]
  exact ⟨rfl, rfl⟩

/-- Claim C4 witness at the concrete profile-create run. -/
theorem c4_password_asymmetry_witness :
    (buildProfileOptions cfgEx tmplEx userEx (jsTrim " My ASP ")
        "pw").imap.password = some "pw" ∧
      (buildProfileOptions cfgEx tmplEx userEx (jsTrim " My ASP ")
        "pw").smtp.password = none :=
  c4_password_asymmetry cfgEx tmplEx usersDbEx [] 5 (Except.ok "B64")
    reqProfileEx ⟨7, "pw"⟩
    (buildProfileOptions cfgEx tmplEx userEx (jsTrim " My ASP ") "pw")
    (by decide)

/-- Claim C5 counterexample: the template provides the display name Template
Display, yet the composed profile display name is the ASP description My ASP,
not the template display name. -/
theorem c5_counterexample :
    (createAsp cfgEx tmplEx usersDbEx [] 5 (Except.ok ⟨7, "pw"⟩)
        (Except.ok "B64") reqProfileEx).signOpts.map
        ProfileOptions.displayName = some (some "My ASP") ∧
      substField userEx.address tmplEx.displayName =
        some "Template Display" ∧
      ("My ASP" : String) ≠ "Template Display" := by
  refine ⟨by decide, by decide, by decide⟩

/-- Claim C5 (amended): the composed display name always equals the trimmed
ASP description; the template display name would be used only for an empty
description, which validation rules out. -/
theorem c5_display_name_amended (cfg : Config) (tmpl : MobileconfigTemplate)
    (usersDb : Nat → Option UserData) (aspsDb : List Asp) (now : Nat)
    (genRes : Except String GenResult) (signRes : Except String String)
    (req : CreateRequest) (o : ProfileOptions)
    (hd : descriptionValid req.description = true)
    (ho : (createAsp cfg tmpl usersDb aspsDb now genRes signRes req).signOpts
      = some o) :
    o.displayName = some (jsTrim req.description) := by
  obtain ⟨u, g, hu, hg, hbuild⟩ :=
    createAsp_signOpts_inv cfg tmpl usersDb aspsDb now genRes signRes req o ho
  have h1 : (jsTrim req.description != "") = true := by
    unfold descriptionValid at hd
    exact (Bool.and_eq_true _ _ |>.mp hd).1
  have hne : (jsTrim req.description == "") = false := by
    cases hcs : (jsTrim req.description == "") with
    | false => rfl
    | true =>
      rw [bne, hcs] at h1
      exact absurd h1 (by decide)
  rw [hbuild]
  simp only [buildProfileOptions, jsOrStr, hne]
  simp

/-- Claim C5 witness: the amended display name fact at the concrete run. -/
theorem c5_display_name_amended_witness :
    (buildProfileOptions cfgEx tmplEx userEx (jsTrim " My ASP ")
        "pw").displayName = some (jsTrim " My ASP ") :=
  c5_display_name_amended cfgEx tmplEx usersDbEx [] 5 (Except.ok ⟨7, "pw"⟩)
    (Except.ok "B64") reqProfileEx
    (buildProfileOptions cfgEx tmplEx userEx (jsTrim " My ASP ") "pw")
    (by decide) (by decide)

/-- Claim C6 counterexample: the configuration sets the mail-submission setup
secure flag to false, yet the composed smtp block secure flag is true: the
value is the hardcoded literal of line 335, not the configuration value. -/
theorem c6_counterexample :
    cfgEx.smtpSetupSecure = false ∧
      (createAsp cfgEx tmplEx usersDbEx [] 5 (Except.ok ⟨7, "pw"⟩)
        (Except.ok "B64") reqProfileEx).signOpts.map
        (fun o => o.smtp.secure) = some true := by
  refine ⟨by decide, by decide⟩

/-- Claim C6 (amended): the composed smtp block secure flag is always the
constant true, regardless of the server setup configuration. -/
theorem c6_smtp_secure_amended (cfg : Config) (tmpl : MobileconfigTemplate)
    (usersDb : Nat → Option UserData) (aspsDb : List Asp) (now : Nat)
    (genRes : Except String GenResult) (signRes : Except String String)
    (req : CreateRequest) (o : ProfileOptions)
    (ho : (createAsp cfg tmpl usersDb aspsDb now genRes signRes req).signOpts
      = some o) :
    o.smtp.secure = true := by
  obtain ⟨u, g, hu, hg, hbuild⟩ :=
    createAsp_signOpts_inv cfg tmpl usersDb aspsDb now genRes signRes req o ho
  rw [hbuild]
  rfl

/-- Claim C6 witness at the concrete run, whose configuration has the setup
secure flag false. -/
theorem c6_smtp_secure_amended_witness :
    (buildProfileOptions cfgEx tmplEx userEx (jsTrim " My ASP ")
        "pw").smtp.secure = true :=
  c6_smtp_secure_amended cfgEx tmplEx usersDbEx [] 5 (Except.ok ⟨7, "pw"⟩)
    (Except.ok "B64") reqProfileEx
    (buildProfileOptions cfgEx tmplEx userEx (jsTrim " My ASP ") "pw")
    (by decide)

/-- Claim C7: for an existing account, list answers success with all of the
account ASP summaries in ascending id (creation) order; the results are a
permutation of the summaries of exactly the account records; each summary is
the fixed projection carrying id, description, scopes, last use time and
event (none rendering as false when never used) and created; the stored
credential material never influences a summary; and an account without ASPs
yields success with the empty sequence, not an error. -/
theorem c7_list_contract (usersDb : Nat → Option UserData) (aspsDb : List Asp)
    (user : Nat) (u : UserData) (hu : usersDb user = some u) :
    listAsps usersDb aspsDb user =
        ListResponse.success (listResults aspsDb user) ∧
      List.Sorted (fun a b => a ≤ b)
        ((listResults aspsDb user).map AspSummary.id) ∧
      (listResults aspsDb user).Perm
        ((userAsps aspsDb user).map toSummary) ∧
      (userAsps aspsDb user = [] → listResults aspsDb user = []) ∧
      (∀ a p, toSummary (setPassword a p) = toSummary a) := by
  refine ⟨listAsps_success usersDb aspsDb user u hu,
    listResults_sorted aspsDb user, ?_, ?_, fun a p => rfl⟩
  · exact (List.perm_insertionSort aspLe (userAsps aspsDb user)).map toSummary
  · intro h
    unfold listResults
    rw [h]
    rfl

/-- Claim C7 witness: the three records of user 1 come back in ascending id
order A, B, C, with the record of user 2 excluded. -/
theorem c7_list_contract_witness :
    listAsps usersDbEx aspsDbEx 1 =
        ListResponse.success (listResults aspsDbEx 1) ∧
      listResults aspsDbEx 1 =
        [toSummary aspA, toSummary aspB, toSummary aspC] :=
  ⟨(c7_list_contract usersDbEx aspsDbEx 1 userEx rfl).1, by decide⟩

/-- Claim C8 counterexample: when userHandler.deleteASP fails because no
matching record exists, the handler answers with the error message only: the
response has no code field at all, in particular not the NotFound code. -/
theorem c8_counterexample :
    (deleteAsp true (Except.error "Invalid or unknown ASP key")).error =
        some "Invalid or unknown ASP key" ∧
      (deleteAsp true (Except.error "Invalid or unknown ASP key")).code =
        none ∧
      deleteAsp true (Except.error "Invalid or unknown ASP key") ≠
        successDeleteJson := by
  refine ⟨by decide, by decide, by decide⟩

/-- Claim C8 (amended): every delete response is either the success body or
an error body carrying an error message; a code field is attached only for
input-validation failures, and then it is InputValidationError; the error
raised by userHandler.deleteASP (in particular the not-found deletion error)
is reported with the message only and carries no code field at all. -/
theorem c8_delete_response_amended (v : Bool) (r : Except String Unit) :
    (deleteAsp v r = successDeleteJson ∨
      ((deleteAsp v r).success = none ∧
        ∃ m, (deleteAsp v r).error = some m)) ∧
      (∀ c, (deleteAsp v r).code = some c →
        v = false ∧ c = "InputValidationError") ∧
      (∀ m, r = Except.error m → v = true → (deleteAsp v r).code = none) := by
  cases v
  · refine ⟨Or.inr ⟨rfl, ⟨joiErrorMessage, rfl⟩⟩, ?_, ?_⟩
    · intro c hc
      have hce : some "InputValidationError" = some c := hc
      exact ⟨rfl, (Option.some.inj hce).symm⟩
    · intro m hm hv
      exact Bool.noConfusion hv
  · cases r with
    | error m =>
      refine ⟨Or.inr ⟨rfl, ⟨m, rfl⟩⟩, ?_, fun m2 hm2 hv => rfl⟩
      intro c hc
      exact Option.noConfusion hc
    | ok x =>
      refine ⟨Or.inl rfl, ?_, ?_⟩
      · intro c hc
        exact Option.noConfusion hc
      · intro m hm hv
        exact Except.noConfusion hm

/-- Claim C8 witness: at the concrete not-found deletion error the amended
theorem yields the absent code field. -/
theorem c8_delete_response_amended_witness :
    (deleteAsp true (Except.error "Invalid or unknown ASP key")).code =
      none :=
  (c8_delete_response_amended true
      (Except.error "Invalid or unknown ASP key")).2.2
    "Invalid or unknown ASP key" rfl rfl

end WildduckAsps
